import Mathlib

/-
Verification of the `hal-avr-mega-uart` driver (src/uart.h) against its
natural-language specification.

The repository snapshot contains only the header `src/uart.h`.  The header
carries the whole compile-time configuration logic (default macros, the
interrupt-conflict check, and the conditional declaration of the polling
API), which is embedded below directly from the preprocessor text.  The
runtime bodies (`uart.c`) and the enum header (`UART_enums.h`) are not in
the snapshot; where a claim depends on them, the missing operation is
modelled from the specification and marked as such in its doc comment.
-/

namespace Uart

/-- A user build configuration: for each configuration macro of
`src/uart.h`, the value the user defines before including the header, or
`none`/`false` when left undefined.  Flag-like macros (`UART_RXC_ECHO`,
`UART_RXCIE`, `UART_TXCIE`, `UART_UDRIE`) are object-like defines with no
value, so they are `Bool` ("defined or not"). -/
structure UserConfig where
  f_cpu : Option Nat
  baudrate : Option Nat
  datasize : Option Nat
  parity : Option Nat
  stopbits : Option Nat
  rxc_echo : Bool
  handshake : Option Nat
  handshake_xon : Option Nat
  handshake_xoff : Option Nat
  stdmode : Option Nat
  rxcie : Bool
  txcie : Bool
  udrie : Bool
deriving DecidableEq

/-- The user configuration that defines nothing before including the
header: every macro falls back to the header defaults. -/
def defaultUserConfig : UserConfig :=
  { f_cpu := none, baudrate := none, datasize := none, parity := none
    stopbits := none, rxc_echo := false, handshake := none
    handshake_xon := none, handshake_xoff := none, stdmode := none
    rxcie := false, txcie := false, udrie := false }

/-- The macro values in effect after the preprocessor has run over
`src/uart.h`.  `handshake_xon`/`handshake_xoff` stay `Option` because the
header can leave them undefined (their `#ifndef` defaults sit inside the
`#ifndef UART_HANDSHAKE` block, lines 116-195). -/
structure ResolvedConfig where
  f_cpu : Nat
  baudrate : Nat
  datasize : Nat
  parity : Nat
  stopbits : Nat
  rxc_echo : Bool
  handshake : Nat
  handshake_xon : Option Nat
  handshake_xoff : Option Nat
  stdmode : Nat
  rxcie : Bool
  txcie : Bool
  udrie : Bool
deriving DecidableEq

/-- Preprocessor resolution of `src/uart.h` lines 23-212: each
`#ifndef X #define X d #endif` block yields `getD`.  Faithful to the
source, the `UART_HANDSHAKE_XON`/`UART_HANDSHAKE_XOFF` defaults (0x11 and
0x13, lines 180-194) are applied only inside the `#ifndef UART_HANDSHAKE`
block: when the user defines `UART_HANDSHAKE` himself the block is
skipped and the two macros keep whatever the user gave (possibly
nothing).  `UART_RXC_ECHO`'s default block (lines 99-114) defines nothing
(the `#define` is commented out), so echo is on only when the user
defines it. -/
def resolveConfig (u : UserConfig) : ResolvedConfig :=
  { f_cpu := u.f_cpu.getD 12000000
    baudrate := u.baudrate.getD 9600
    datasize := u.datasize.getD 8
    parity := u.parity.getD 0
    stopbits := u.stopbits.getD 1
    rxc_echo := u.rxc_echo
    handshake := u.handshake.getD 0
    handshake_xon :=
      match u.handshake with
      | none => some (u.handshake_xon.getD 0x11)
      | some _ => u.handshake_xon
    handshake_xoff :=
      match u.handshake with
      | none => some (u.handshake_xoff.getD 0x13)
      | some _ => u.handshake_xoff
    stdmode := u.stdmode.getD 1
    rxcie := u.rxcie
    txcie := u.txcie
    udrie := u.udrie }

/-- The interrupt-conflict check of `src/uart.h` lines 253-270:

    #ifndef UART_UDRIE
        #ifndef UART_TXCIE
            // #define UART_UDRIE
        #else
            #error "UART_TXCIE and UART_UDRIE cannot be used together"
        #endif
    #endif

The `#error` directive is reached exactly when `UART_UDRIE` is NOT
defined (outer `#ifndef` taken) and `UART_TXCIE` IS defined (inner
`#ifndef` falls to its `#else`). -/
def errorFires (u : UserConfig) : Bool :=
  if u.udrie then false
  else if u.txcie then true
  else false

/-- The functions declared by `src/uart.h`. -/
inductive FuncName
  | uart_init
  | uart_disable
  | uart_putchar
  | uart_printf
  | uart_getchar
  | uart_scanchar
  | uart_error_flags
  | uart_scanf
  | uart_clear
  | uart_handshake
deriving DecidableEq

/-- The list of function prototypes the preprocessor keeps, mirroring the
conditional blocks of `src/uart.h` lines 279-305:
`uart_putchar` (and `uart_printf` for stdio modes 1/2) only when neither
`UART_TXCIE` nor `UART_UDRIE` is defined; `uart_getchar`,
`uart_scanchar`, `uart_error_flags` (and `uart_scanf`, `uart_clear` for
stdio modes 1/3) only when `UART_RXCIE` is not defined; `uart_handshake`
only when no interrupt macro is defined and `UART_HANDSHAKE > 0`. -/
def declaredFunctions (c : ResolvedConfig) : List FuncName :=
  [FuncName.uart_init, FuncName.uart_disable]
  ++ (if !c.txcie && !c.udrie then
        [FuncName.uart_putchar]
        ++ (if c.stdmode == 1 || c.stdmode == 2 then [FuncName.uart_printf] else [])
      else [])
  ++ (if !c.rxcie then
        [FuncName.uart_getchar, FuncName.uart_scanchar, FuncName.uart_error_flags]
        ++ (if c.stdmode == 1 || c.stdmode == 3 then
              [FuncName.uart_scanf, FuncName.uart_clear]
            else [])
      else [])
  ++ (if !c.txcie && !c.udrie && !c.rxcie && decide (0 < c.handshake) then
        [FuncName.uart_handshake]
      else [])

/-- Whether the build configuration `c` declares the function `f`. -/
def declares (c : ResolvedConfig) (f : FuncName) : Bool :=
  (declaredFunctions c).contains f

/-- Modelled from the spec: the `UART_Handshake` enum lives in
`common/enums/UART_enums.h`, which is not in the snapshot; the spec's
`HandshakeState` is one of Ready or Paused. -/
inductive UART_Handshake
  | Ready
  | Paused
deriving DecidableEq

/-- Modelled from the spec: the `UART_Error` flag set lives in the
missing enum header; the spec's `ErrorFlags` is a bitset over
FrameError, ParityError, Overrun and a BufferFull-equivalent. -/
structure ErrorFlags where
  frameError : Bool
  parityError : Bool
  overrun : Bool
  bufferFull : Bool
deriving DecidableEq

/-- The empty error-flag set. -/
def noErrors : ErrorFlags := ⟨false, false, false, false⟩

/-- Selector for a single error bit of `ErrorFlags`. -/
inductive ErrBit
  | frame
  | parity
  | overrun
  | buffer
deriving DecidableEq

/-- Read one bit out of an `ErrorFlags` value. -/
def getBit (e : ErrorFlags) : ErrBit → Bool
  | .frame => e.frameError
  | .parity => e.parityError
  | .overrun => e.overrun
  | .buffer => e.bufferFull

/-- Modelled from the spec: one hardware receive transaction — the data
byte together with the status bits the hardware presents for exactly
this byte (the `uart.c` body that reads the status/data register pair is
not in the snapshot). -/
structure Frame where
  data : Nat
  frameError : Bool
  parityError : Bool
  overrun : Bool
deriving DecidableEq

/-- The per-byte status delivered with a received frame. -/
def perByteStatus (fr : Frame) : ErrorFlags :=
  ⟨fr.frameError, fr.parityError, fr.overrun, false⟩

/-- Fold one received frame's hardware status bits into the sticky
error-flag set (a set bit is never cleared by receiving). -/
def ErrorFlags.accumulate (e : ErrorFlags) (fr : Frame) : ErrorFlags :=
  ⟨e.frameError || fr.frameError, e.parityError || fr.parityError,
   e.overrun || fr.overrun, e.bufferFull⟩

/-- Modelled from the spec: the receive-side driver state (`uart.c` is
not in the snapshot) — the sticky error flags that `uart_error_flags`
reports and `uart_clear` resets. -/
structure DriverState where
  flags : ErrorFlags
deriving DecidableEq

/-- Modelled from the spec: `uart_getchar` (body not in the snapshot)
blocks until the hardware signals data available, then reads the data
byte and the associated status bits in the same transaction and returns
them as one composite result (byte as return value, status through the
out parameter).  The pending-frame list stands for the bytes the
hardware will deliver; `none` is the call still blocking because no
frame ever arrives. -/
def uart_getchar (s : DriverState) :
    List Frame → Option ((Nat × ErrorFlags) × DriverState × List Frame)
  | [] => none
  | fr :: rest =>
      some ((fr.data, perByteStatus fr), ⟨s.flags.accumulate fr⟩, rest)

/-- Modelled from the spec: `uart_scanchar` (body not in the snapshot)
is the same composite receive with the two results swapped — it returns
the status and writes the byte through its out parameter. -/
def uart_scanchar (s : DriverState) (pend : List Frame) :
    Option ((ErrorFlags × Nat) × DriverState × List Frame) :=
  match uart_getchar s pend with
  | none => none
  | some ((b, st), s2, rest) => some ((st, b), s2, rest)

/-- Modelled from the spec: the runtime operations that touch the sticky
error flags — a receive poll, a `uart_error_flags` read, and the
explicit `uart_clear`. -/
inductive Op
  | receive (fr : Frame)
  | readFlags
  | clear
deriving DecidableEq

/-- Modelled from the spec: the effect of one operation on the sticky
flags (`uart.c` is not in the snapshot) — receiving ORs the new frame's
status in, reading the flags does not change them, and only `uart_clear`
resets them. -/
def step (s : DriverState) : Op → DriverState
  | .receive fr => ⟨s.flags.accumulate fr⟩
  | .readFlags => s
  | .clear => ⟨noErrors⟩

/-- Run a sequence of driver operations from a starting state. -/
def run (s : DriverState) : List Op → DriverState
  | [] => s
  | op :: ops => run (step s op) ops

/-- Modelled from the spec: one snapshot of the hardware lines the
transmit path polls — the CTS input (hardware flow control) and the
data-register-empty condition. -/
structure HwSnapshot where
  cts : Bool
  udre : Bool
deriving DecidableEq

/-- Modelled from the spec: the busy-wait loop of `uart_putchar` (body
not in the snapshot) over a trace of hardware snapshots — it spins until
the first instant where the handshake state is Ready (CTS asserted) and
the data register is empty, and returns that instant; `none` is the
unbounded poll never terminating. -/
def putcharWait : List HwSnapshot → Option Nat
  | [] => none
  | h :: t => if h.cts && h.udre then some 0 else (putcharWait t).map (· + 1)

/-- Modelled from the spec: `uart_putchar` with hardware flow control
(body not in the snapshot) — busy-waits per `putcharWait`, then loads
the byte `b` into the transmit data register at that instant. -/
def uart_putchar_hw (b : Nat) (tr : List HwSnapshot) : Option (Nat × Nat) :=
  (putcharWait tr).map (fun i => (i, b))

/-- Modelled from the spec: the software flow-control negotiator state —
whether the remote side has paused us with XOFF. -/
structure SwState where
  remotePaused : Bool
deriving DecidableEq

/-- Modelled from the spec: the negotiator's interception of one
incoming byte (`uart.c` is not in the snapshot) — an XOFF byte pauses,
an XON byte resumes, any other byte is not a control byte and is left
for the application. -/
def negotiate (xon xoff : Nat) (_st : SwState) (fr : Frame) : Option SwState :=
  if fr.data = xoff then some ⟨true⟩
  else if fr.data = xon then some ⟨false⟩
  else none

/-- Modelled from the spec: the software-flow-control receive path (body
not in the snapshot) — a filter stage strictly between the hardware read
and the value returned to the caller: every incoming XON/XOFF byte is
consumed by the negotiator, and only the first non-control frame is
delivered. -/
def uart_getchar_sw (xon xoff : Nat) (st : SwState) :
    List Frame → Option (Frame × SwState × List Frame)
  | [] => none
  | fr :: rest =>
      match negotiate xon xoff st fr with
      | some st2 => uart_getchar_sw xon xoff st2 rest
      | none => some (fr, st, rest)

/-- Modelled from the spec: the two discrete handshake lines of hardware
flow-control mode — the CTS input read by the driver and the RTS output
it drives. -/
structure HwPins where
  cts : Bool
  rts : Bool
deriving DecidableEq

/-- Modelled from the spec: `uart_handshake` in hardware (RTS/CTS) mode
(body not in the snapshot) — a single call that both requests a
transition (driving the RTS output from the requested state) and
reports the resulting state, which mirrors the CTS input: Ready when
CTS is asserted, Paused when it is deasserted. -/
def uart_handshake_hw (status : UART_Handshake) (pins : HwPins) :
    UART_Handshake × HwPins :=
  (if pins.cts then UART_Handshake.Ready else UART_Handshake.Paused,
   { pins with rts := match status with | .Ready => true | .Paused => false })

end Uart

namespace Uart

/-- C10: every configuration macro left undefined receives its header
default, and the all-defaults build resolves to F_CPU = 12000000 Hz,
baud 9600, 8 data bits, no parity (0), 1 stop bit, echo off, flow
control off (handshake 0), and stdio mode 1 (printf + scanf). -/
theorem default_config_resolves :
    resolveConfig defaultUserConfig =
      { f_cpu := 12000000, baudrate := 9600, datasize := 8, parity := 0
        stopbits := 1, rxc_echo := false, handshake := 0
        handshake_xon := some 0x11, handshake_xoff := some 0x13
        stdmode := 1, rxcie := false, txcie := false, udrie := false } := by
  rfl

/-- C1: the interrupt-conflict `#error` of `src/uart.h` lines 253-270
does NOT fire when both `UART_TXCIE` and `UART_UDRIE` are defined, and
DOES fire when `UART_TXCIE` is defined alone; in general it fires exactly
when `UART_TXCIE` is defined and `UART_UDRIE` is not.  This contradicts
the claim (and the header's own error message): defining both macros is
accepted silently, while the valid TXCIE-only combination is rejected. -/
theorem error_check_inverted :
    (∀ u : UserConfig, errorFires u = (u.txcie && !u.udrie)) ∧
    errorFires { defaultUserConfig with txcie := true, udrie := true } = false ∧
    errorFires { defaultUserConfig with txcie := true } = true := by
  refine ⟨fun u => ?_, rfl, rfl⟩
  cases h : u.udrie <;> cases h2 : u.txcie <;> simp [errorFires, h, h2]

/-- C2: when the user selects software flow control by defining
`UART_HANDSHAKE` (as 1) and does not override the XON/XOFF bytes, the
resolved configuration leaves `UART_HANDSHAKE_XON` and
`UART_HANDSHAKE_XOFF` undefined — the 0x11/0x13 defaults of lines
180-194 sit inside the `#ifndef UART_HANDSHAKE` block and are skipped.
The defaults are only applied when `UART_HANDSHAKE` itself is left
undefined, i.e. when flow control is disabled. -/
theorem xon_xoff_defaults_skipped_in_software_mode :
    (resolveConfig { defaultUserConfig with handshake := some 1 }).handshake = 1 ∧
    (resolveConfig { defaultUserConfig with handshake := some 1 }).handshake_xon = none ∧
    (resolveConfig { defaultUserConfig with handshake := some 1 }).handshake_xoff = none ∧
    (resolveConfig defaultUserConfig).handshake_xon = some 0x11 ∧
    (resolveConfig defaultUserConfig).handshake_xoff = some 0x13 := by
  exact ⟨rfl, rfl, rfl, rfl, rfl⟩

/-- C3 (counterexample): in the build with `UART_STDMODE = 0` and no
interrupt macro defined, `uart_printf` is not declared although neither
`UART_TXCIE` nor `UART_UDRIE` is defined — the claim's "exactly when"
fails, because `uart_printf` additionally requires stdio mode 1 or 2
(`src/uart.h` lines 285-287). -/
theorem printf_missing_without_stdmode :
    declares (resolveConfig { defaultUserConfig with stdmode := some 0 })
      FuncName.uart_printf = false ∧
    (resolveConfig { defaultUserConfig with stdmode := some 0 }).txcie = false ∧
    (resolveConfig { defaultUserConfig with stdmode := some 0 }).udrie = false := by
  exact ⟨rfl, rfl, rfl⟩

/-- C3 (amended): `uart_putchar` is declared exactly when neither
`UART_TXCIE` nor `UART_UDRIE` is defined; `uart_printf` exactly when, in
addition, `UART_STDMODE` is 1 or 2; `uart_getchar`, `uart_scanchar` and
`uart_error_flags` are declared exactly when `UART_RXCIE` is not
defined. -/
theorem polling_functions_declared :
    ∀ c : ResolvedConfig,
      declares c FuncName.uart_putchar = (!c.txcie && !c.udrie) ∧
      declares c FuncName.uart_printf
        = ((!c.txcie && !c.udrie) && (c.stdmode == 1 || c.stdmode == 2)) ∧
      declares c FuncName.uart_getchar = !c.rxcie ∧
      declares c FuncName.uart_scanchar = !c.rxcie ∧
      declares c FuncName.uart_error_flags = !c.rxcie := by
  intro c
  by_cases h1 : c.stdmode = 1 <;> by_cases h2 : c.stdmode = 2 <;>
    by_cases h3 : c.stdmode = 3 <;>
    cases htx : c.txcie <;> cases hud : c.udrie <;> cases hrx : c.rxcie <;>
    simp [declares, declaredFunctions, List.contains, List.elem_eq_mem,
      htx, hud, hrx, h1, h2, h3]

/-- C9 (counterexample): with `UART_STDMODE = 2` (printf only) and
`UART_RXCIE` not defined, `uart_clear` is not declared — its prototype
sits inside the `#if UART_STDMODE == 1 || UART_STDMODE == 3` block
(`src/uart.h` lines 295-298), so "not defining UART_RXCIE" alone does
not make it available. -/
theorem clear_missing_without_scanf_mode :
    declares (resolveConfig { defaultUserConfig with stdmode := some 2 })
      FuncName.uart_clear = false ∧
    (resolveConfig { defaultUserConfig with stdmode := some 2 }).rxcie = false := by
  exact ⟨rfl, rfl⟩

/-- C9 (amended): `uart_clear` is declared exactly when `UART_RXCIE` is
not defined AND `UART_STDMODE` is 1 or 3. -/
theorem clear_declared_iff :
    ∀ c : ResolvedConfig,
      declares c FuncName.uart_clear
        = (!c.rxcie && (c.stdmode == 1 || c.stdmode == 3)) := by
  intro c
  by_cases h1 : c.stdmode = 1 <;> by_cases h2 : c.stdmode = 2 <;>
    by_cases h3 : c.stdmode = 3 <;>
    cases htx : c.txcie <;> cases hud : c.udrie <;> cases hrx : c.rxcie <;>
    simp [declares, declaredFunctions, List.contains, List.elem_eq_mem,
      htx, hud, hrx, h1, h2, h3]

/-- C4: in hardware flow-control mode a single `uart_handshake` call
both requests a transition and reports the resulting state, and the
reported state is determined by the CTS input alone — Ready when CTS is
asserted, Paused when it is deasserted, regardless of the requested
state. -/
theorem handshake_reports_cts :
    ∀ (s t : UART_Handshake) (pins : HwPins),
      (uart_handshake_hw s pins).1
        = (if pins.cts then UART_Handshake.Ready else UART_Handshake.Paused) ∧
      (uart_handshake_hw s pins).1 = (uart_handshake_hw t pins).1 := by
  intro s t pins
  exact ⟨rfl, rfl⟩

/-- C5: the error flags are sticky — a set bit stays set across any
sequence of receives and `uart_error_flags` reads, as long as the
explicit `uart_clear` operation does not occur in the sequence. -/
theorem error_flags_sticky :
    ∀ (ops : List Op) (s : DriverState) (b : ErrBit),
      Op.clear ∉ ops → getBit s.flags b = true →
      getBit (run s ops).flags b = true := by
  intro ops
  induction ops with
  | nil => exact fun s b _ h => h
  | cons op rest ih =>
      intro s b hnc h
      rw [List.mem_cons] at hnc
      push_neg at hnc
      cases op with
      | receive fr =>
          refine ih _ b hnc.2 ?_
          cases b <;>
            simp only [step, getBit, ErrorFlags.accumulate] <;>
            simp only [getBit] at h <;> simp [h]
      | readFlags => exact ih _ b hnc.2 h
      | clear => exact absurd rfl hnc.1

/-- C5 witness: a frame-error bit set before a successful receive and a
flags read is still set afterwards. -/
theorem error_flags_sticky_witness :
    getBit (run ⟨⟨true, false, false, false⟩⟩
      [Op.receive ⟨0x41, false, false, false⟩, Op.readFlags]).flags
      ErrBit.frame = true :=
  error_flags_sticky [Op.receive ⟨0x41, false, false, false⟩, Op.readFlags]
    ⟨⟨true, false, false, false⟩⟩ ErrBit.frame (by decide) (by decide)

/-- C6: every successful `uart_getchar` delivers the data byte and the
per-byte status of one and the same hardware frame as one composite
result, consuming exactly that frame, and `uart_scanchar` on the same
state delivers the same composite pair the other way around. -/
theorem getchar_composite :
    ∀ (s : DriverState) (pend : List Frame)
      (res : (Nat × ErrorFlags) × DriverState × List Frame),
      uart_getchar s pend = some res →
      ∃ fr : Frame, pend = fr :: res.2.2 ∧ res.1.1 = fr.data ∧
        res.1.2 = perByteStatus fr ∧
        uart_scanchar s pend = some ((res.1.2, res.1.1), res.2) := by
  intro s pend res h
  cases pend with
  | nil => simp [uart_getchar] at h
  | cons fr tail =>
      have h2 :
          ((fr.data, perByteStatus fr),
            (⟨s.flags.accumulate fr⟩ : DriverState), tail) = res := by
        simpa [uart_getchar] using h
      subst h2
      exact ⟨fr, rfl, rfl, rfl, rfl⟩

/-- C6 witness: receiving the single pending frame 0x41 with a frame
error yields the byte and the matching status in one composite result. -/
theorem getchar_composite_witness :
    ∃ fr : Frame,
      [(⟨0x41, true, false, false⟩ : Frame)] = fr :: ([] : List Frame) ∧
      (0x41 : Nat) = fr.data ∧
      ErrorFlags.mk true false false false = perByteStatus fr ∧
      uart_scanchar ⟨noErrors⟩ [⟨0x41, true, false, false⟩]
        = some ((ErrorFlags.mk true false false false, 0x41),
            (⟨⟨true, false, false, false⟩⟩ : DriverState), ([] : List Frame)) :=
  getchar_composite ⟨noErrors⟩ [⟨0x41, true, false, false⟩]
    ((0x41, ⟨true, false, false, false⟩),
      ⟨⟨true, false, false, false⟩⟩, []) rfl

/-- The busy-wait of the transmit path stops at the first instant whose
snapshot has CTS asserted and the data register empty, and at no
earlier instant do both conditions hold. -/
theorem putcharWait_spec :
    ∀ (tr : List HwSnapshot) (i : Nat),
      putcharWait tr = some i →
      (∃ snap, tr.get? i = some snap ∧ snap.cts = true ∧ snap.udre = true) ∧
      ∀ j, j < i →
        ∃ prev, tr.get? j = some prev ∧ (prev.cts && prev.udre) = false := by
  intro tr
  induction tr with
  | nil => intro i h; simp [putcharWait] at h
  | cons hd tl ih =>
      intro i h
      by_cases hc : (hd.cts && hd.udre) = true
      · simp [putcharWait, hc] at h
        subst h
        rcases Bool.and_eq_true _ _ |>.mp hc with ⟨hcts, hudre⟩
        refine ⟨⟨hd, rfl, hcts, hudre⟩, ?_⟩
        intro j hj
        exact absurd hj (Nat.not_lt_zero j)
      · simp [putcharWait, hc] at h
        obtain ⟨i2, hi2, rfl⟩ := h
        obtain ⟨⟨snap, hsnap, h1, h2⟩, hall⟩ := ih i2 hi2
        refine ⟨⟨snap, by simpa using hsnap, h1, h2⟩, ?_⟩
        intro j hj
        cases j with
        | zero =>
            refine ⟨hd, rfl, ?_⟩
            simpa using hc
        | succ j2 =>
            have hlt : j2 < i2 := by omega
            obtain ⟨prev, hp, hpf⟩ := hall j2 hlt
            exact ⟨prev, by simpa using hp, hpf⟩

/-- C7: whenever `uart_putchar` in hardware flow-control mode loads a
byte, it loads exactly the requested byte, at an instant where CTS is
asserted (handshake Ready) and the data register is empty, and at every
earlier instant of the busy-wait the transmit condition did not hold — it never
sends while the handshake state is Paused. -/
theorem putchar_no_send_while_paused :
    ∀ (b : Nat) (tr : List HwSnapshot) (i x : Nat),
      uart_putchar_hw b tr = some (i, x) →
      x = b ∧
      (∃ snap, tr.get? i = some snap ∧ snap.cts = true ∧ snap.udre = true) ∧
      ∀ j, j < i →
        ∃ prev, tr.get? j = some prev ∧ (prev.cts && prev.udre) = false := by
  intro b tr i x h
  simp only [uart_putchar_hw, Option.map_eq_some', Prod.mk.injEq] at h
  obtain ⟨a, ha, rfl, rfl⟩ := h
  exact ⟨rfl, (putcharWait_spec tr a ha).1, (putcharWait_spec tr a ha).2⟩

/-- C7 witness: on a trace where CTS is low at instant 0 and high with
an empty data register at instant 1, `uart_putchar` loads byte 0x41 at
instant 1 and instant 0 satisfies the blocked condition. -/
theorem putchar_no_send_while_paused_witness :
    (65 : Nat) = 65 ∧
    (∃ snap, ([⟨false, true⟩, ⟨true, true⟩] : List HwSnapshot).get? 1
        = some snap ∧ snap.cts = true ∧ snap.udre = true) ∧
    ∀ j, j < 1 →
      ∃ prev, ([⟨false, true⟩, ⟨true, true⟩] : List HwSnapshot).get? j
          = some prev ∧ (prev.cts && prev.udre) = false :=
  putchar_no_send_while_paused 65 [⟨false, true⟩, ⟨true, true⟩] 1 65 (by decide)

/-- C8: when the software-flow-control receive path delivers a frame,
that frame's byte equals neither XON nor XOFF, and every frame the call
consumed before it was an XON or XOFF control byte — control bytes are
eaten by the negotiator and never surfaced as data. -/
theorem getchar_sw_filters_control_bytes :
    ∀ (xon xoff : Nat) (pend : List Frame) (st st2 : SwState) (fr : Frame)
      (rest : List Frame),
      uart_getchar_sw xon xoff st pend = some (fr, st2, rest) →
      (fr.data ≠ xon ∧ fr.data ≠ xoff) ∧
      ∃ ctl, pend = ctl ++ fr :: rest ∧
        ∀ g ∈ ctl, g.data = xon ∨ g.data = xoff := by
  intro xon xoff pend
  induction pend with
  | nil => intro st st2 fr rest h; simp [uart_getchar_sw] at h
  | cons hd tl ih =>
      intro st st2 fr rest h
      by_cases hoff : hd.data = xoff
      · have hneg : negotiate xon xoff st hd = some ⟨true⟩ := by
          unfold negotiate
          rw [if_pos hoff]
        simp only [uart_getchar_sw, hneg] at h
        obtain ⟨hne, ctl, hsplit, hctl⟩ := ih ⟨true⟩ st2 fr rest h
        refine ⟨hne, hd :: ctl, by simp [hsplit], ?_⟩
        intro g hg
        rcases List.mem_cons.mp hg with rfl | hg2
        · exact Or.inr hoff
        · exact hctl g hg2
      · by_cases hon : hd.data = xon
        · have hneg : negotiate xon xoff st hd = some ⟨false⟩ := by
            unfold negotiate
            rw [if_neg hoff, if_pos hon]
          simp only [uart_getchar_sw, hneg] at h
          obtain ⟨hne, ctl, hsplit, hctl⟩ := ih ⟨false⟩ st2 fr rest h
          refine ⟨hne, hd :: ctl, by simp [hsplit], ?_⟩
          intro g hg
          rcases List.mem_cons.mp hg with rfl | hg2
          · exact Or.inl hon
          · exact hctl g hg2
        · have hneg : negotiate xon xoff st hd = none := by
            unfold negotiate
            rw [if_neg hoff, if_neg hon]
          simp only [uart_getchar_sw, hneg, Option.some.injEq,
            Prod.mk.injEq] at h
          obtain ⟨rfl, rfl, rfl⟩ := h
          exact ⟨⟨hon, hoff⟩, [], rfl, by simp⟩

/-- C8 witness: with the default control bytes, a pending XOFF (0x13)
followed by the data byte 0x41 delivers 0x41, and the consumed prefix is
exactly the control byte. -/
theorem getchar_sw_filters_control_bytes_witness :
    ((⟨0x41, false, false, false⟩ : Frame).data ≠ 0x11 ∧
      (⟨0x41, false, false, false⟩ : Frame).data ≠ 0x13) ∧
    ∃ ctl,
      [(⟨0x13, false, false, false⟩ : Frame), ⟨0x41, false, false, false⟩]
        = ctl ++ (⟨0x41, false, false, false⟩ : Frame) :: ([] : List Frame) ∧
      ∀ g ∈ ctl, g.data = 0x11 ∨ g.data = 0x13 :=
  getchar_sw_filters_control_bytes 0x11 0x13
    [⟨0x13, false, false, false⟩, ⟨0x41, false, false, false⟩]
    ⟨false⟩ ⟨true⟩ ⟨0x41, false, false, false⟩ [] (by decide)

end Uart
